import Mathlib

/-!
Shallow embedding of the conversation-persistence and settings layer of the
Inception desktop chat application: the IPC handlers of the Electron main
process (db:save-message, db:get-recent-chats, db:get-conversation-messages,
settings:save, settings:load) together with the process-wide
currentConversationId pointer are modelled as pure functions over an explicit
state, and the claims of the specification are settled against them.

Modelling conventions:
- the SQLite database is a pair of row lists kept in rowid (insertion) order,
  with the AUTOINCREMENT counters carried explicitly,
- CURRENT_TIMESTAMP is an explicit `now : Nat` argument,
- storage errors thrown by an INSERT are injected through explicit Boolean
  fault flags; a flag set means the corresponding statement throws,
- the two settings files are an explicit file-system record; an absent or
  unreadable (JSON.parse throws) file is `none`,
- JavaScript values arriving over IPC or out of JSON.parse are `JsVal`.
-/

/-- A JavaScript value as it arrives over IPC or out of JSON.parse.
`other` stands for any value that is neither a string nor an integer-valued
number (null, undefined, booleans, objects, arrays). -/
inductive JsVal where
  | str : String → JsVal
  | num : Int → JsVal
  | other : JsVal
deriving DecidableEq, Repr

/-- Length of a JavaScript string (content.length). -/
def jsLength (s : String) : Nat := s.data.length

/-- JavaScript content.substring(0, n). -/
def jsSubstringTo (s : String) (n : Nat) : String := String.mk (s.data.take n)

/-- JavaScript falsiness of content.trim(): true exactly when the string is
empty or consists of whitespace only. -/
def jsIsBlank (s : String) : Bool := s.data.all Char.isWhitespace

/-- Value of a leading digit run; the accumulator is none while no digit has
been consumed yet (parseInt yields NaN in that case). -/
def digitsValue : List Char → Option Nat → Option Nat
  | [], acc => acc
  | c :: cs, acc =>
    if c.isDigit then digitsValue cs (some ((acc.getD 0) * 10 + (c.toNat - 48)))
    else acc

/-- JavaScript parseInt(s, 10) on a string: skip leading whitespace, optional
sign, then a digit run; none models NaN. -/
def jsParseIntStr (s : String) : Option Int :=
  match s.data.dropWhile Char.isWhitespace with
  | '-' :: rest => (digitsValue rest none).map (fun n => -(n : Int))
  | '+' :: rest => (digitsValue rest none).map (fun n => (n : Int))
  | t => (digitsValue t none).map (fun n => (n : Int))

/-- JavaScript parseInt(v, 10): integer-valued numbers parse to themselves,
strings through their leading digit run, anything else to NaN (none). -/
def jsParseInt : JsVal → Option Int
  | .num n => some n
  | .str s => jsParseIntStr s
  | .other => none

/-- Row of the conversations table. -/
structure Conversation where
  id : Nat
  title : String
  createdAt : Nat
  updatedAt : Nat
deriving DecidableEq, Repr

/-- Row of the messages table. -/
structure Message where
  id : Nat
  conversationId : Nat
  role : String
  content : String
  createdAt : Nat
deriving DecidableEq, Repr

/-- The SQLite database: rows in rowid (insertion) order plus the
AUTOINCREMENT counters of the two tables. -/
structure DB where
  conversations : List Conversation
  messages : List Message
  nextConvId : Nat
  nextMsgId : Nat
deriving DecidableEq, Repr

/-- Main-process state: the database handle (none when initDatabase failed)
and the process-wide currentConversationId variable. -/
structure AppState where
  db : Option DB
  currentConversationId : Option Nat
deriving DecidableEq, Repr

/-- Well-formedness of states reachable from initDatabase: SQLite rowids
start at 1, so the conversations AUTOINCREMENT counter is at least 1. -/
def WF (st : AppState) : Prop := ∀ d, st.db = some d → 1 ≤ d.nextConvId

/-- JavaScript falsiness of the currentConversationId variable in the check
if (!currentConversationId): null and 0 are falsy. -/
def isFalsyId : Option Nat → Bool
  | none => true
  | some i => i == 0

/-- Title derivation of the db:save-message handler:
content.length > 50 ? content.substring(0, 50) + '...' : content. -/
def deriveTitle (content : String) : String :=
  if jsLength content > 50 then jsSubstringTo content 50 ++ "..." else content

/-- Tail of the db:save-message handler: the message INSERT and the updated_at
UPDATE, with cid the value of currentConversationId at that point and d the
database contents (including any conversation row created just before).
msgInsertFails injects a storage error thrown by the message INSERT; the
handler catches it and returns null, leaving the state as it stands. -/
def insertMessageStep (st : AppState) (d : DB) (cid : Nat) (role content : String)
    (msgInsertFails : Bool) (now : Nat) : Option Nat × AppState :=
  if msgInsertFails then
    (none, { st with db := some d, currentConversationId := some cid })
  else
    let msg : Message := ⟨d.nextMsgId, cid, role, content, now⟩
    let d1 : DB := { d with messages := d.messages ++ [msg], nextMsgId := d.nextMsgId + 1 }
    let touched : List Conversation :=
      d1.conversations.map (fun cv => if cv.id = cid then { cv with updatedAt := now } else cv)
    let d2 : DB := { d1 with conversations := touched }
    (some d.nextMsgId, { st with db := some d2, currentConversationId := some cid })

/-- The db:save-message IPC handler. role and content arrive over IPC as
arbitrary JavaScript values; convInsertFails and msgInsertFails inject storage
errors thrown by the conversation INSERT and the message INSERT respectively;
now is CURRENT_TIMESTAMP during the call. Returns the new message rowid (none
models the null failure sentinel) and the state after the call. -/
def saveMessage (st : AppState) (role content : JsVal)
    (convInsertFails msgInsertFails : Bool) (now : Nat) : Option Nat × AppState :=
  match st.db with
  | none => (none, st)
  | some d =>
    if ¬ (role = JsVal.str "user" ∨ role = JsVal.str "assistant") then (none, st)
    else
      match content with
      | .num _ => (none, st)
      | .other => (none, st)
      | .str c =>
        if jsIsBlank c then (none, st)
        else
          let rs : String := if role = JsVal.str "user" then "user" else "assistant"
          let cur0 : Option Nat :=
            if role = JsVal.str "user" then none else st.currentConversationId
          if isFalsyId cur0 then
            if convInsertFails then (none, { st with currentConversationId := cur0 })
            else
              let d1 : DB := { d with
                conversations := d.conversations ++ [⟨d.nextConvId, deriveTitle c, now, now⟩],
                nextConvId := d.nextConvId + 1 }
              insertMessageStep st d1 d.nextConvId rs c msgInsertFails now
          else
            insertMessageStep st d (cur0.getD 0) rs c msgInsertFails now

/-- ORDER BY created_at ASC on messages; ties keep rowid order through the
stable sort. -/
def createdAtLe (a b : Message) : Prop := a.createdAt ≤ b.createdAt

instance : DecidableRel createdAtLe :=
  fun a b => inferInstanceAs (Decidable (a.createdAt ≤ b.createdAt))

instance : IsTotal Message createdAtLe := ⟨fun a b => Nat.le_total a.createdAt b.createdAt⟩

instance : IsTrans Message createdAtLe := ⟨fun _ _ _ => Nat.le_trans⟩

/-- ORDER BY updated_at DESC on conversations. -/
def updatedAtGe (a b : Conversation) : Prop := b.updatedAt ≤ a.updatedAt

instance : DecidableRel updatedAtGe :=
  fun a b => inferInstanceAs (Decidable (b.updatedAt ≤ a.updatedAt))

/-- The db:get-conversation-messages IPC handler: parseInt the id, reject
non-integers and non-positive values, then
SELECT * FROM messages WHERE conversation_id = ? ORDER BY created_at ASC. -/
def getConversationMessages (st : AppState) (conversationId : JsVal) : List Message :=
  match st.db with
  | none => []
  | some d =>
    match jsParseInt conversationId with
    | none => []
    | some id =>
      if id ≤ 0 then []
      else List.insertionSort createdAtLe
        (d.messages.filter (fun m => (m.conversationId : Int) == id))

/-- Row of the db:get-recent-chats result set. -/
structure ChatSummary where
  id : Nat
  title : String
  updatedAt : Nat
  firstMessage : Option String
deriving DecidableEq, Repr

/-- Correlated subquery of db:get-recent-chats: content of the earliest
user-role message of the conversation, NULL (none) when there is none. -/
def firstUserMessage (d : DB) (cid : Nat) : Option String :=
  (List.insertionSort createdAtLe
    (d.messages.filter (fun m => m.conversationId == cid && m.role == "user"))).head?.map
    (fun m => m.content)

/-- The db:get-recent-chats IPC handler: conversations ORDER BY updated_at
DESC LIMIT 20, each row carrying the first user message as first_message. -/
def getRecentChats (st : AppState) : List ChatSummary :=
  match st.db with
  | none => []
  | some d =>
    ((List.insertionSort updatedAtGe d.conversations).take 20).map
      (fun c => ⟨c.id, c.title, c.updatedAt, firstUserMessage d c.id⟩)

/-- Allow-list of model identifiers (ALLOWED_MODELS in the source). -/
def ALLOWED_MODELS : List String :=
  ["mercury", "mercury-2", "mercury-coder", "mercury-coder-small", "mercury-coder-large"]

/-- Allow-list of themes (ALLOWED_THEMES in the source). -/
def ALLOWED_THEMES : List String := ["dark", "light", "auto"]

/-- Upper bound on maxTokens (MAX_TOKENS_LIMIT in the source). -/
def MAX_TOKENS_LIMIT : Int := 16384

/-- Parsed JSON content of the general settings file (settings.json in the
userData directory). Only the four keys the handlers read are modelled; a key
absent from the file is none. -/
structure StoredSettings where
  model : Option JsVal
  maxTokens : Option JsVal
  theme : Option JsVal
  apiKey : Option JsVal
deriving DecidableEq, Repr

/-- Parsed JSON content of the secret file (~/.inception/config.json). -/
structure SecretFile where
  apiKey : Option JsVal
deriving DecidableEq, Repr

/-- The two independent settings locations. none models an absent or
unreadable file: read failures are caught and treated as absence. -/
structure FS where
  settingsFile : Option StoredSettings
  secretFile : Option SecretFile
deriving DecidableEq, Repr

/-- Part of the settings:save handler after the apiKey block: allow-list
validation of model, maxTokens, theme, then the write of the general settings
file. fs1 already reflects any secret-file write made by the apiKey block;
each validation failure returns false without touching the general file. -/
def settingsSaveRest (fs1 : FS) (s : StoredSettings) : Bool × FS :=
  let mOk : Option (Option JsVal) :=
    match s.model with
    | none => some none
    | some (.str m) => if m ∈ ALLOWED_MODELS then some (some (.str m)) else none
    | some _ => none
  match mOk with
  | none => (false, fs1)
  | some modelField =>
    let tOk : Option (Option JsVal) :=
      match s.maxTokens with
      | none => some none
      | some v =>
        match jsParseInt v with
        | none => none
        | some t => if t < 1 ∨ t > MAX_TOKENS_LIMIT then none else some (some (.num t))
    match tOk with
    | none => (false, fs1)
    | some maxTokensField =>
      let thOk : Option (Option JsVal) :=
        match s.theme with
        | none => some none
        | some (.str th) => if th ∈ ALLOWED_THEMES then some (some (.str th)) else none
        | some _ => none
      match thOk with
      | none => (false, fs1)
      | some themeField =>
        (true, { fs1 with settingsFile := some ⟨modelField, maxTokensField, themeField, none⟩ })

/-- The settings:save IPC handler. The input is none when the IPC payload is
not an object. When an apiKey field is present it must be a string and is
written to the secret file first; only then are the other fields validated, so
a later validation failure returns false with the secret file already
rewritten. -/
def settingsSave (fs : FS) (settings : Option StoredSettings) : Bool × FS :=
  match settings with
  | none => (false, fs)
  | some s =>
    match s.apiKey with
    | some (.str k) => settingsSaveRest { fs with secretFile := some ⟨some (.str k)⟩ } s
    | some _ => (false, fs)
    | none => settingsSaveRest fs s

/-- The settings object the settings:load handler returns to the renderer. -/
structure Settings where
  model : String
  maxTokens : Int
  theme : String
  apiKey : String
deriving DecidableEq, Repr

/-- Overlay of the model field in settings:load: the default "mercury-2"
replaced by the stored value when that value is a truthy string on the
allow-list. -/
def loadModelField (sf : Option StoredSettings) : String :=
  match sf with
  | some p =>
    match p.model with
    | some (.str s) => if s ≠ "" ∧ s ∈ ALLOWED_MODELS then s else "mercury-2"
    | _ => "mercury-2"
  | none => "mercury-2"

/-- Overlay of the maxTokens field in settings:load: the default 16384
replaced by parseInt of the stored value when that is an integer in
[1, MAX_TOKENS_LIMIT]. -/
def loadMaxTokensField (sf : Option StoredSettings) : Int :=
  match sf with
  | some p =>
    match p.maxTokens with
    | some v =>
      match jsParseInt v with
      | some t => if 1 ≤ t ∧ t ≤ MAX_TOKENS_LIMIT then t else 16384
      | none => 16384
    | none => 16384
  | none => 16384

/-- Overlay of the theme field in settings:load: the default "dark" replaced
by the stored value when that value is a truthy string on the allow-list. -/
def loadThemeField (sf : Option StoredSettings) : String :=
  match sf with
  | some p =>
    match p.theme with
    | some (.str s) => if s ≠ "" ∧ s ∈ ALLOWED_THEMES then s else "dark"
    | _ => "dark"
  | none => "dark"

/-- The settings:load IPC handler: defaults overlaid with the validated
fields of the general settings file, then the apiKey from the secret file,
falling back to the legacy-migration branch when the secret file is missing.
Returns the settings and the file system after the call (migration writes
included). -/
def settingsLoad (fs : FS) : Settings × FS :=
  let m : String := loadModelField fs.settingsFile
  let mt : Int := loadMaxTokensField fs.settingsFile
  let th : String := loadThemeField fs.settingsFile
  match fs.secretFile with
  | some f =>
    let k : String :=
      match f.apiKey with
      | some (.str s) => s
      | _ => ""
    (⟨m, mt, th, k⟩, fs)
  | none =>
    match fs.settingsFile with
    | some p =>
      match p.apiKey with
      | some (.str s) =>
        if s ≠ "" then
          (⟨m, mt, th, s⟩,
            { settingsFile := some { p with apiKey := none },
              secretFile := some ⟨some (.str s)⟩ })
        else (⟨m, mt, th, ""⟩, fs)
      | _ => (⟨m, mt, th, ""⟩, fs)
    | none => (⟨m, mt, th, ""⟩, fs)

/-- Titles of all conversation rows of a state, in rowid order. -/
def conversationTitles (st : AppState) : List String :=
  match st.db with
  | none => []
  | some d => d.conversations.map (fun cv => cv.title)

/-- Helper equation: a fault-free append that finds no current conversation
(user role, or a falsy pointer) creates a conversation row and a message row
and moves the pointer to the new conversation. -/
theorem saveMessage_create_success (st : AppState) (d : DB) (rs c : String) (now : Nat)
    (hdb : st.db = some d) (hrole : rs = "user" ∨ rs = "assistant")
    (hc : jsIsBlank c = false)
    (hcur : rs = "user" ∨ isFalsyId st.currentConversationId = true) :
    saveMessage st (.str rs) (.str c) false false now =
      (some d.nextMsgId,
       ⟨some ⟨d.conversations.map
                (fun cv => if cv.id = d.nextConvId then { cv with updatedAt := now } else cv) ++
                [(⟨d.nextConvId, deriveTitle c, now, now⟩ : Conversation)],
              d.messages ++ [(⟨d.nextMsgId, d.nextConvId, rs, c, now⟩ : Message)],
              d.nextConvId + 1, d.nextMsgId + 1⟩,
        some d.nextConvId⟩) := by
  obtain ⟨db, cur⟩ := st
  simp only [AppState.db] at hdb
  subst hdb
  rcases hrole with rfl | rfl
  · simp [saveMessage, insertMessageStep, hc, isFalsyId]
  · rcases hcur with h | h
    · exact absurd h (by decide)
    · simp only [AppState.currentConversationId] at h
      simp [saveMessage, insertMessageStep, hc, h]

/-- Helper equation: a fault-free assistant append with a non-falsy current
conversation pointer attaches the message to that conversation and keeps the
pointer where it was. -/
theorem saveMessage_reuse_success (st : AppState) (d : DB) (c : String) (cid : Nat) (now : Nat)
    (hdb : st.db = some d) (hc : jsIsBlank c = false)
    (hcur : st.currentConversationId = some cid) (hcid : cid ≠ 0) :
    saveMessage st (.str "assistant") (.str c) false false now =
      (some d.nextMsgId,
       ⟨some ⟨d.conversations.map
                (fun cv => if cv.id = cid then { cv with updatedAt := now } else cv),
              d.messages ++ [(⟨d.nextMsgId, cid, "assistant", c, now⟩ : Message)],
              d.nextConvId, d.nextMsgId + 1⟩,
        some cid⟩) := by
  obtain ⟨db, cur⟩ := st
  simp only [AppState.db] at hdb
  simp only [AppState.currentConversationId] at hcur
  subst hdb
  subst hcur
  simp [saveMessage, insertMessageStep, hc, isFalsyId, hcid]

/-- C1 (counterexample): on an empty database, a user append whose message
INSERT fails returns the null failure sentinel, yet conversation row 1 —
newly created and holding no message — is still in the database and is still
recorded as the current conversation: the claimed rollback or reconciliation
does not happen. -/
theorem save_message_insert_failure_counterexample :
    (saveMessage ⟨some ⟨[], [], 1, 1⟩, none⟩ (.str "user") (.str "hi") false true 5).1 = none ∧
    (saveMessage ⟨some ⟨[], [], 1, 1⟩, none⟩ (.str "user") (.str "hi") false true 5).2 =
      ⟨some ⟨[⟨1, "hi", 5, 5⟩], [], 2, 1⟩, some 1⟩ := by
  decide

/-- C1 (amended): when the message INSERT fails after a conversation row was
created for the append, db:save-message returns the null failure sentinel, but
the newly created (still empty) conversation row stays in the database and
stays recorded as the current conversation; no rollback happens. -/
theorem save_message_insert_failure_keeps_dangling_conversation
    (st : AppState) (d : DB) (rs c : String) (now : Nat)
    (hdb : st.db = some d) (hrole : rs = "user" ∨ rs = "assistant")
    (hc : jsIsBlank c = false)
    (hcur : rs = "user" ∨ isFalsyId st.currentConversationId = true) :
    saveMessage st (.str rs) (.str c) false true now =
      (none,
       ⟨some ⟨d.conversations ++ [(⟨d.nextConvId, deriveTitle c, now, now⟩ : Conversation)],
              d.messages, d.nextConvId + 1, d.nextMsgId⟩,
        some d.nextConvId⟩) := by
  obtain ⟨db, cur⟩ := st
  simp only [AppState.db] at hdb
  subst hdb
  rcases hrole with rfl | rfl
  · simp [saveMessage, insertMessageStep, hc, isFalsyId]
  · rcases hcur with h | h
    · exact absurd h (by decide)
    · simp only [AppState.currentConversationId] at h
      simp [saveMessage, insertMessageStep, hc, h]

/-- C1 (witness): the amended theorem applied to a concrete assistant append
on an empty database with a null pointer and a failing message INSERT. -/
theorem save_message_insert_failure_keeps_dangling_conversation_witness :
    saveMessage ⟨some ⟨[], [], 4, 9⟩, none⟩ (.str "assistant") (.str "yo") false true 3 =
      (none, ⟨some ⟨[⟨4, "yo", 3, 3⟩], [], 5, 9⟩, some 4⟩) :=
  save_message_insert_failure_keeps_dangling_conversation
    ⟨some ⟨[], [], 4, 9⟩, none⟩ ⟨[], [], 4, 9⟩ "assistant" "yo" 3 rfl (Or.inr rfl)
    (by decide) (Or.inr rfl)

/-- C5: a successful user-role append always inserts a fresh conversation row
(the conversations table grows by one even when a current conversation id
already existed, whatever its value), and two consecutive successful user-role
appends always record two distinct current conversation ids — the operation is
not idempotent by design. -/
theorem user_append_always_creates_new_conversation :
    (∀ st d c now mid st', st.db = some d → jsIsBlank c = false →
       saveMessage st (.str "user") (.str c) false false now = (some mid, st') →
       ∃ d', st'.db = some d' ∧
         d'.conversations.length = d.conversations.length + 1 ∧
         st'.currentConversationId = some d.nextConvId) ∧
    (∀ st c1 c2 t1 t2 mid1 mid2 st1 st2 i1 i2,
       saveMessage st (.str "user") (.str c1) false false t1 = (some mid1, st1) →
       st1.currentConversationId = some i1 →
       saveMessage st1 (.str "user") (.str c2) false false t2 = (some mid2, st2) →
       st2.currentConversationId = some i2 →
       i1 ≠ i2) := by
  have key : ∀ st d c now mid st', st.db = some d → jsIsBlank c = false →
      saveMessage st (.str "user") (.str c) false false now = (some mid, st') →
      ∃ d', st'.db = some d' ∧
        d'.conversations.length = d.conversations.length + 1 ∧
        d'.nextConvId = d.nextConvId + 1 ∧
        st'.currentConversationId = some d.nextConvId := by
    intro st d c now mid st' hdb hc hsave
    rw [saveMessage_create_success st d "user" c now hdb (Or.inl rfl) hc (Or.inl rfl)] at hsave
    obtain ⟨-, rfl⟩ := Prod.mk.injEq _ _ _ _ ▸ hsave
    exact ⟨_, rfl, by simp, rfl, rfl⟩
  have blank_or : ∀ st c now mid st' (_ : saveMessage st (.str "user") (.str c) false false now
      = (some mid, st')), ∃ d, st.db = some d ∧ jsIsBlank c = false := by
    intro st c now mid st' hsave
    cases hdb : st.db with
    | none => simp [saveMessage, hdb] at hsave
    | some d =>
      cases hc : jsIsBlank c with
      | false => exact ⟨d, rfl, rfl⟩
      | true => simp [saveMessage, hdb, hc] at hsave
  refine ⟨fun st d c now mid st' hdb hc hsave => ?_, ?_⟩
  · obtain ⟨d', h1, h2, -, h4⟩ := key st d c now mid st' hdb hc hsave
    exact ⟨d', h1, h2, h4⟩
  · intro st c1 c2 t1 t2 mid1 mid2 st1 st2 i1 i2 h1 hi1 h2 hi2
    obtain ⟨d, hdb, hc1⟩ := blank_or st c1 t1 mid1 st1 h1
    obtain ⟨da, hdba, hla, hna, hcura⟩ := key st d c1 t1 mid1 st1 hdb hc1 h1
    obtain ⟨db2, hdb2, hc2⟩ := blank_or st1 c2 t2 mid2 st2 h2
    obtain ⟨db3, hdb3, hlb, hnb, hcurb⟩ := key st1 db2 c2 t2 mid2 st2 hdb2 hc2 h2
    rw [hcura] at hi1
    rw [hcurb] at hi2
    have e1 : i1 = d.nextConvId := by injection hi1 with h; omega
    have e2 : i2 = db2.nextConvId := by injection hi2 with h; omega
    have : db2 = da := by rw [hdba] at hdb2; injection hdb2 with h; exact h.symm
    subst this
    omega

/-- C5 (witness): both parts of the theorem applied to concrete runs — a user
append on an empty store creates conversation 1, and a second user append
creates conversation 2, distinct from 1. -/
theorem user_append_always_creates_new_conversation_witness :
    (∃ d', (⟨some ⟨[⟨1, "a", 1, 1⟩], [⟨1, 1, "user", "a", 1⟩], 2, 2⟩, some 1⟩ : AppState).db =
        some d' ∧
      d'.conversations.length = ([] : List Conversation).length + 1 ∧
      (⟨some ⟨[⟨1, "a", 1, 1⟩], [⟨1, 1, "user", "a", 1⟩], 2, 2⟩, some 1⟩
        : AppState).currentConversationId = some 1) ∧
    (1 : Nat) ≠ 2 :=
  ⟨user_append_always_creates_new_conversation.1
      ⟨some ⟨[], [], 1, 1⟩, none⟩ ⟨[], [], 1, 1⟩ "a" 1 1
      ⟨some ⟨[⟨1, "a", 1, 1⟩], [⟨1, 1, "user", "a", 1⟩], 2, 2⟩, some 1⟩
      rfl (by decide) (by decide),
   user_append_always_creates_new_conversation.2
      ⟨some ⟨[], [], 1, 1⟩, none⟩ "a" "b" 1 2 1 2
      ⟨some ⟨[⟨1, "a", 1, 1⟩], [⟨1, 1, "user", "a", 1⟩], 2, 2⟩, some 1⟩
      ⟨some ⟨[⟨1, "a", 1, 1⟩, ⟨2, "b", 2, 2⟩],
             [⟨1, 1, "user", "a", 1⟩, ⟨2, 2, "user", "b", 2⟩], 3, 3⟩, some 2⟩
      1 2 (by decide) rfl (by decide) rfl⟩

/-- C6 (counterexample): a 51-character content produces a title that is the
first 50 characters followed by three ASCII dots "...", which is not the first
50 characters followed by the single ellipsis character — the claim's title
formula with the ellipsis character does not hold. -/
theorem derived_title_ellipsis_counterexample :
    conversationTitles
        (saveMessage ⟨some ⟨[], [], 1, 1⟩, none⟩ (.str "assistant")
          (.str (String.mk (List.replicate 51 'a'))) false false 7).2 =
      [String.mk (List.replicate 50 'a') ++ "..."] ∧
    String.mk (List.replicate 50 'a') ++ "..." ≠
      String.mk (List.replicate 50 'a') ++ "…" := by
  constructor
  · decide
  · decide

/-- C6 (amended): an append that runs with no current conversation — user
role, or assistant role with the pointer falsy — creates a conversation whose
title equals the content when the content is at most 50 characters long, and
otherwise the first 50 characters followed by "..." (three ASCII dots); the
rule is the same for both roles. -/
theorem derived_title_truncation_rule
    (st : AppState) (d : DB) (rs c : String) (now : Nat)
    (hdb : st.db = some d) (hrole : rs = "user" ∨ rs = "assistant")
    (hc : jsIsBlank c = false)
    (hcur : rs = "user" ∨ isFalsyId st.currentConversationId = true) :
    ∃ d', ((saveMessage st (.str rs) (.str c) false false now).2).db = some d' ∧
      ∃ cv, cv ∈ d'.conversations ∧ cv.id = d.nextConvId ∧
        cv.title = (if jsLength c ≤ 50 then c else jsSubstringTo c 50 ++ "...") := by
  rw [saveMessage_create_success st d rs c now hdb hrole hc hcur]
  refine ⟨_, rfl, ⟨d.nextConvId, deriveTitle c, now, now⟩, ?_, rfl, ?_⟩
  · exact List.mem_append_right _ (List.mem_singleton.mpr rfl)
  · show deriveTitle c = _
    unfold deriveTitle
    by_cases h : jsLength c ≤ 50
    · rw [if_neg (by omega), if_pos h]
    · rw [if_pos (by omega), if_neg h]

/-- C6 (witness): the amended theorem applied to an assistant append with a
null pointer and a short content. -/
theorem derived_title_truncation_rule_witness :
    ∃ d', ((saveMessage ⟨some ⟨[], [], 1, 1⟩, none⟩ (.str "assistant") (.str "yo")
        false false 7).2).db = some d' ∧
      ∃ cv, cv ∈ d'.conversations ∧ cv.id = 1 ∧
        cv.title = (if jsLength "yo" ≤ 50 then "yo" else jsSubstringTo "yo" 50 ++ "...") :=
  derived_title_truncation_rule ⟨some ⟨[], [], 1, 1⟩, none⟩ ⟨[], [], 1, 1⟩ "assistant" "yo" 7
    rfl (Or.inr rfl) (by decide) (Or.inr rfl)

/-- C7: db:save-message returns the null sentinel and leaves the state
untouched when the role is not user/assistant or the content is not a
non-blank string, and any injected storage error — a failing message INSERT,
or a failing conversation INSERT whenever creation is attempted — is caught
and surfaced as the null result; the handler never throws (it is a total
function of the state). -/
theorem save_message_rejects_invalid_input_and_storage_errors :
    (∀ st role content f1 f2 now,
       ¬ (role = JsVal.str "user" ∨ role = JsVal.str "assistant") →
       saveMessage st role content f1 f2 now = (none, st)) ∧
    (∀ st role content f1 f2 now,
       (∀ s, content = JsVal.str s → jsIsBlank s = true) →
       saveMessage st role content f1 f2 now = (none, st)) ∧
    (∀ st role content f1 now, (saveMessage st role content f1 true now).1 = none) ∧
    (∀ st role content f2 now,
       (role = JsVal.str "user" ∨ isFalsyId st.currentConversationId = true) →
       (saveMessage st role content true f2 now).1 = none) := by
  refine ⟨?_, ?_, ?_, ?_⟩
  · intro st role content f1 f2 now h
    cases hdb : st.db with
    | none => simp [saveMessage, hdb]
    | some d => simp [saveMessage, hdb, h]
  · intro st role content f1 f2 now h
    cases hdb : st.db with
    | none => simp [saveMessage, hdb]
    | some d =>
      by_cases hr : role = JsVal.str "user" ∨ role = JsVal.str "assistant"
      · cases content with
        | str s => simp [saveMessage, hdb, hr, h s rfl]
        | num n => simp [saveMessage, hdb, hr]
        | other => simp [saveMessage, hdb, hr]
      · simp [saveMessage, hdb, hr]
  · intro st role content f1 now
    cases hdb : st.db with
    | none => simp [saveMessage, hdb]
    | some d =>
      by_cases hr : role = JsVal.str "user" ∨ role = JsVal.str "assistant"
      · cases content with
        | str s =>
          cases hc : jsIsBlank s with
          | true => simp [saveMessage, hdb, hr, hc]
          | false =>
            rcases hr with rfl | rfl
            · cases f1 <;> simp [saveMessage, hdb, hc, isFalsyId, insertMessageStep]
            · by_cases hf : isFalsyId st.currentConversationId = true
              · cases f1 <;> simp [saveMessage, hdb, hc, hf, insertMessageStep]
              · simp [saveMessage, hdb, hc, hf, insertMessageStep]
        | num n => simp [saveMessage, hdb, hr]
        | other => simp [saveMessage, hdb, hr]
      · simp [saveMessage, hdb, hr]
  · intro st role content f2 now h
    cases hdb : st.db with
    | none => simp [saveMessage, hdb]
    | some d =>
      by_cases hr : role = JsVal.str "user" ∨ role = JsVal.str "assistant"
      · cases content with
        | str s =>
          cases hc : jsIsBlank s with
          | true => simp [saveMessage, hdb, hr, hc]
          | false =>
            rcases hr with rfl | rfl
            · simp [saveMessage, hdb, hc, isFalsyId]
            · rcases h with h | h
              · exact absurd h (by decide)
              · simp [saveMessage, hdb, hc, h]
        | num n => simp [saveMessage, hdb, hr]
        | other => simp [saveMessage, hdb, hr]
      · simp [saveMessage, hdb, hr]

/-- C7 (witness): the theorem's four parts applied to concrete calls — a
"system" role, a blank content, a failing message INSERT, and a failing
conversation INSERT. -/
theorem save_message_rejects_invalid_input_witness :
    (saveMessage ⟨some ⟨[], [], 1, 1⟩, none⟩ (.str "system") (.str "hi") false false 0 =
       (none, ⟨some ⟨[], [], 1, 1⟩, none⟩)) ∧
    (saveMessage ⟨some ⟨[], [], 1, 1⟩, none⟩ (.str "user") (.str "  ") false false 0 =
       (none, ⟨some ⟨[], [], 1, 1⟩, none⟩)) ∧
    ((saveMessage ⟨some ⟨[], [], 1, 1⟩, none⟩ (.str "user") (.str "hi") false true 0).1 =
       none) ∧
    ((saveMessage ⟨some ⟨[], [], 1, 1⟩, none⟩ (.str "user") (.str "hi") true false 0).1 =
       none) :=
  ⟨save_message_rejects_invalid_input_and_storage_errors.1
      ⟨some ⟨[], [], 1, 1⟩, none⟩ (.str "system") (.str "hi") false false 0 (by decide),
   save_message_rejects_invalid_input_and_storage_errors.2.1
      ⟨some ⟨[], [], 1, 1⟩, none⟩ (.str "user") (.str "  ") false false 0
      (by intro s hs; injection hs with hs; rw [← hs]; decide),
   save_message_rejects_invalid_input_and_storage_errors.2.2.1
      ⟨some ⟨[], [], 1, 1⟩, none⟩ (.str "user") (.str "hi") false 0,
   save_message_rejects_invalid_input_and_storage_errors.2.2.2
      ⟨some ⟨[], [], 1, 1⟩, none⟩ (.str "user") (.str "hi") false 0 (Or.inl rfl)⟩

/-- C4: for a valid role and non-blank content, a successful db:save-message
followed by db:get-conversation-messages on the conversation the message was
appended to (the current conversation after the call) returns a sequence
containing that message, with the same role and the same content. -/
theorem append_then_list_messages_contains_message
    (st st' : AppState) (rs c : String) (now mid cid : Nat)
    (hrole : rs = "user" ∨ rs = "assistant")
    (hc : jsIsBlank c = false)
    (hWF : WF st)
    (hsave : saveMessage st (.str rs) (.str c) false false now = (some mid, st'))
    (hcid : st'.currentConversationId = some cid) :
    ∃ m, m ∈ getConversationMessages st' (JsVal.num cid) ∧ m.role = rs ∧ m.content = c := by
  cases hdb : st.db with
  | none => simp [saveMessage, hdb] at hsave
  | some d =>
    have hnext : 1 ≤ d.nextConvId := hWF d hdb
    by_cases hcr : rs = "user" ∨ isFalsyId st.currentConversationId = true
    · rw [saveMessage_create_success st d rs c now hdb hrole hc hcr] at hsave
      injection hsave with hmid hst
      subst hst
      simp only [AppState.currentConversationId] at hcid
      injection hcid with hcid
      cases hcid
      have hpos : ¬ ((d.nextConvId : Int) ≤ 0) := by omega
      refine ⟨⟨d.nextMsgId, d.nextConvId, rs, c, now⟩, ?_, rfl, rfl⟩
      simp only [getConversationMessages, jsParseInt, if_neg hpos, List.mem_insertionSort]
      refine List.mem_filter.mpr ⟨List.mem_append_right _ (List.mem_singleton.mpr rfl), ?_⟩
      simp
    · rw [not_or] at hcr
      obtain ⟨hnu, hnf⟩ := hcr
      have hra : rs = "assistant" := by
        rcases hrole with h | h
        · exact absurd h hnu
        · exact h
      subst hra
      cases hcur : st.currentConversationId with
      | none => rw [hcur] at hnf; exact absurd (rfl : isFalsyId none = true) hnf
      | some k =>
        have hk : k ≠ 0 := by
          rw [hcur] at hnf
          simpa [isFalsyId] using hnf
        rw [saveMessage_reuse_success st d c k now hdb hc hcur hk] at hsave
        injection hsave with hmid hst
        subst hst
        simp only [AppState.currentConversationId] at hcid
        injection hcid with hcid
        cases hcid
        have hpos : ¬ ((cid : Int) ≤ 0) := by omega
        refine ⟨⟨d.nextMsgId, cid, "assistant", c, now⟩, ?_, rfl, rfl⟩
        simp only [getConversationMessages, jsParseInt, if_neg hpos, List.mem_insertionSort]
        refine List.mem_filter.mpr ⟨List.mem_append_right _ (List.mem_singleton.mpr rfl), ?_⟩
        simp

/-- C4 (witness): the theorem applied to a concrete user append on an empty
store, listing the messages of the resulting current conversation 1. -/
theorem append_then_list_messages_contains_message_witness :
    ∃ m, m ∈ getConversationMessages
        ⟨some ⟨[⟨1, "hi", 3, 3⟩], [⟨1, 1, "user", "hi", 3⟩], 2, 2⟩, some 1⟩ (JsVal.num 1) ∧
      m.role = "user" ∧ m.content = "hi" :=
  append_then_list_messages_contains_message
    ⟨some ⟨[], [], 1, 1⟩, none⟩
    ⟨some ⟨[⟨1, "hi", 3, 3⟩], [⟨1, 1, "user", "hi", 3⟩], 2, 2⟩, some 1⟩
    "user" "hi" 3 1 1 (Or.inl rfl) (by decide)
    (by intro d h; injection h with h; subst h; decide) (by decide) rfl

/-- C9: db:get-conversation-messages always returns a sequence sorted by
created_at ascending; it returns the empty sequence when the id does not
parse to an integer or parses to a non-positive one (whatever the database
holds); it returns the empty sequence for an unknown id; and for a valid id
the result is a permutation of exactly the stored messages of that
conversation. -/
theorem list_messages_sorted_and_validates_id :
    (∀ st v, List.Sorted createdAtLe (getConversationMessages st v)) ∧
    (∀ st v, jsParseInt v = none → getConversationMessages st v = []) ∧
    (∀ st v i, jsParseInt v = some i → i ≤ 0 → getConversationMessages st v = []) ∧
    (∀ st d v i, st.db = some d → jsParseInt v = some i →
       (∀ m ∈ d.messages, (m.conversationId : Int) ≠ i) →
       getConversationMessages st v = []) ∧
    (∀ st d v i, st.db = some d → jsParseInt v = some i → 0 < i →
       List.Perm (getConversationMessages st v)
         (d.messages.filter (fun m => (m.conversationId : Int) == i))) := by
  refine ⟨?_, ?_, ?_, ?_, ?_⟩
  · intro st v
    cases hdb : st.db with
    | none => simp [getConversationMessages, hdb]
    | some d =>
      cases hp : jsParseInt v with
      | none => simp [getConversationMessages, hdb, hp]
      | some i =>
        by_cases hi : i ≤ 0
        · simp [getConversationMessages, hdb, hp, hi]
        · simp only [getConversationMessages, hdb, hp, if_neg hi]
          exact List.sorted_insertionSort createdAtLe _
  · intro st v hp
    cases hdb : st.db with
    | none => simp [getConversationMessages, hdb]
    | some d => simp [getConversationMessages, hdb, hp]
  · intro st v i hp hi
    cases hdb : st.db with
    | none => simp [getConversationMessages, hdb]
    | some d => simp [getConversationMessages, hdb, hp, hi]
  · intro st d v i hdb hp hmiss
    by_cases hi : i ≤ 0
    · simp [getConversationMessages, hdb, hp, hi]
    · simp only [getConversationMessages, hdb, hp, if_neg hi]
      have : d.messages.filter (fun m => (m.conversationId : Int) == i) = [] := by
        refine List.filter_eq_nil_iff.mpr ?_
        intro m hm
        simpa using hmiss m hm
      rw [this]
      rfl
  · intro st d v i hdb hp hi
    have hneg : ¬ (i ≤ 0) := by omega
    simp only [getConversationMessages, hdb, hp, if_neg hneg]
    exact List.perm_insertionSort createdAtLe _

/-- C9 (witness): the theorem's parts applied to a concrete store — sortedness
of a query result, the empty result for a non-numeric and a non-positive id,
the empty result for an unknown id, and the permutation property for a known
one. -/
theorem list_messages_sorted_and_validates_id_witness :
    List.Sorted createdAtLe (getConversationMessages
      ⟨some ⟨[⟨1, "t", 1, 1⟩], [⟨2, 1, "assistant", "b", 9⟩, ⟨1, 1, "user", "a", 4⟩], 2, 3⟩,
        some 1⟩ (JsVal.num 1)) ∧
    getConversationMessages ⟨some ⟨[⟨1, "t", 1, 1⟩], [], 2, 1⟩, some 1⟩ (JsVal.str "abc") = [] ∧
    getConversationMessages ⟨some ⟨[⟨1, "t", 1, 1⟩], [], 2, 1⟩, some 1⟩ (JsVal.num 0) = [] ∧
    getConversationMessages
      ⟨some ⟨[⟨1, "t", 1, 1⟩], [⟨1, 1, "user", "a", 4⟩], 2, 2⟩, some 1⟩ (JsVal.num 7) = [] ∧
    List.Perm
      (getConversationMessages
        ⟨some ⟨[⟨1, "t", 1, 1⟩], [⟨1, 1, "user", "a", 4⟩], 2, 2⟩, some 1⟩ (JsVal.num 1))
      (([⟨1, 1, "user", "a", 4⟩] : List Message).filter
        (fun m => (m.conversationId : Int) == (1 : Int))) :=
  ⟨list_messages_sorted_and_validates_id.1
      ⟨some ⟨[⟨1, "t", 1, 1⟩], [⟨2, 1, "assistant", "b", 9⟩, ⟨1, 1, "user", "a", 4⟩], 2, 3⟩,
        some 1⟩ (JsVal.num 1),
   list_messages_sorted_and_validates_id.2.1
      ⟨some ⟨[⟨1, "t", 1, 1⟩], [], 2, 1⟩, some 1⟩ (JsVal.str "abc") (by decide),
   list_messages_sorted_and_validates_id.2.2.1
      ⟨some ⟨[⟨1, "t", 1, 1⟩], [], 2, 1⟩, some 1⟩ (JsVal.num 0) 0 (by decide) (by decide),
   list_messages_sorted_and_validates_id.2.2.2.1
      ⟨some ⟨[⟨1, "t", 1, 1⟩], [⟨1, 1, "user", "a", 4⟩], 2, 2⟩, some 1⟩
      ⟨[⟨1, "t", 1, 1⟩], [⟨1, 1, "user", "a", 4⟩], 2, 2⟩ (JsVal.num 7) 7 rfl (by decide)
      (by decide),
   list_messages_sorted_and_validates_id.2.2.2.2
      ⟨some ⟨[⟨1, "t", 1, 1⟩], [⟨1, 1, "user", "a", 4⟩], 2, 2⟩, some 1⟩
      ⟨[⟨1, "t", 1, 1⟩], [⟨1, 1, "user", "a", 4⟩], 2, 2⟩ (JsVal.num 1) 1 rfl (by decide)
      (by decide)⟩

/-- C10 (counterexample): with 21 conversations, the oldest one — which has
no user-role message, only an assistant message — is dropped by the LIMIT 20
of db:get-recent-chats: no entry for it is returned at all, so the claim as
universally stated fails. -/
theorem recent_chats_limit_counterexample :
    ((1 : Nat) ∈ ((List.range 21).map
        (fun i => (⟨i + 1, "c", i + 1, i + 1⟩ : Conversation))).map (fun cv => cv.id) ∧
      (∀ m ∈ [(⟨1, 1, "assistant", "hello", 1⟩ : Message)],
        ¬ (m.conversationId = 1 ∧ m.role = "user"))) ∧
    ∀ e ∈ getRecentChats
        ⟨some ⟨(List.range 21).map (fun i => ⟨i + 1, "c", i + 1, i + 1⟩),
               [⟨1, 1, "assistant", "hello", 1⟩], 22, 2⟩, none⟩,
      e.id ≠ 1 := by
  constructor
  · constructor
    · decide
    · decide
  · decide

/-- C10 (amended): provided the conversation is not cut off by the LIMIT 20
of the query (at most 20 conversations are stored), every conversation with
no user-role message still gets an entry in db:get-recent-chats, and its
first_message field is NULL rather than falling back to assistant content. -/
theorem recent_chats_includes_userless_conversation
    (st : AppState) (d : DB) (cv : Conversation)
    (hdb : st.db = some d)
    (hlen : d.conversations.length ≤ 20)
    (hcv : cv ∈ d.conversations)
    (hnouser : ∀ m ∈ d.messages, ¬ (m.conversationId = cv.id ∧ m.role = "user")) :
    ∃ e, e ∈ getRecentChats st ∧ e.id = cv.id ∧ e.firstMessage = none := by
  refine ⟨⟨cv.id, cv.title, cv.updatedAt, firstUserMessage d cv.id⟩, ?_, rfl, ?_⟩
  · simp only [getRecentChats, hdb]
    have hlen2 : (List.insertionSort updatedAtGe d.conversations).length ≤ 20 := by
      rw [List.length_insertionSort]
      exact hlen
    rw [List.take_of_length_le hlen2]
    exact List.mem_map_of_mem _ ((List.mem_insertionSort updatedAtGe).mpr hcv)
  · show firstUserMessage d cv.id = none
    unfold firstUserMessage
    have hnil : d.messages.filter (fun m => m.conversationId == cv.id && m.role == "user")
        = [] := by
      refine List.filter_eq_nil_iff.mpr ?_
      intro m hm
      simpa using hnouser m hm
    rw [hnil]
    rfl

/-- C10 (witness): the amended theorem applied to a store holding a single
conversation whose only message is an assistant one. -/
theorem recent_chats_includes_userless_conversation_witness :
    ∃ e, e ∈ getRecentChats
        ⟨some ⟨[⟨1, "t", 1, 1⟩], [⟨1, 1, "assistant", "hi", 1⟩], 2, 2⟩, none⟩ ∧
      e.id = (⟨1, "t", 1, 1⟩ : Conversation).id ∧ e.firstMessage = none :=
  recent_chats_includes_userless_conversation
    ⟨some ⟨[⟨1, "t", 1, 1⟩], [⟨1, 1, "assistant", "hi", 1⟩], 2, 2⟩, none⟩
    ⟨[⟨1, "t", 1, 1⟩], [⟨1, 1, "assistant", "hi", 1⟩], 2, 2⟩
    ⟨1, "t", 1, 1⟩ rfl (by decide) (by decide) (by decide)

/-- C2 (counterexample): a save whose payload carries a valid apiKey together
with an invalid model returns failure, yet the dedicated secret file has been
rewritten with the new key before the validation aborted — the claim that no
stored settings data is modified fails for the secret file. -/
theorem settings_save_secret_write_counterexample :
    (settingsSave ⟨some ⟨some (.str "mercury"), none, none, none⟩, some ⟨some (.str "old")⟩⟩
        (some ⟨some (.str "not-a-model"), none, none, some (.str "newkey")⟩)).1 = false ∧
    (settingsSave ⟨some ⟨some (.str "mercury"), none, none, none⟩, some ⟨some (.str "old")⟩⟩
        (some ⟨some (.str "not-a-model"), none, none, some (.str "newkey")⟩)).2.secretFile ≠
      (⟨some ⟨some (.str "mercury"), none, none, none⟩,
        some ⟨some (.str "old")⟩⟩ : FS).secretFile := by
  constructor
  · decide
  · decide

/-- C2 (amended): with any of the four invalid fields of the claim present
(maxTokens 0, maxTokens 20000, model "not-a-model", theme "neon"),
settings:save returns failure and the general settings file is untouched; the
dedicated secret file is also untouched provided the payload carries no apiKey
field (a string apiKey is written to the secret file before the validation of
the other fields runs). -/
theorem settings_save_invalid_field_fails_closed
    (fs : FS) (s : StoredSettings)
    (hbad : s.model = some (.str "not-a-model") ∨ s.maxTokens = some (.num 0) ∨
            s.maxTokens = some (.num 20000) ∨ s.theme = some (.str "neon")) :
    (settingsSave fs (some s)).1 = false ∧
    ((settingsSave fs (some s)).2).settingsFile = fs.settingsFile ∧
    (s.apiKey = none → (settingsSave fs (some s)).2 = fs) := by
  have hrest : ∀ fs1, settingsSaveRest fs1 s = (false, fs1) := by
    intro fs1
    rcases hbad with hm | ht | ht | hth
    · simp [settingsSaveRest, hm, ALLOWED_MODELS]
    · simp only [settingsSaveRest]
      split
      · rfl
      · simp [ht, jsParseInt, MAX_TOKENS_LIMIT]
    · simp only [settingsSaveRest]
      split
      · rfl
      · simp [ht, jsParseInt, MAX_TOKENS_LIMIT]
    · simp only [settingsSaveRest]
      split
      · rfl
      · split
        · rfl
        · simp [hth, ALLOWED_THEMES]
  cases hak : s.apiKey with
  | none => simp [settingsSave, hak, hrest]
  | some v =>
    cases v with
    | str k => simp [settingsSave, hak, hrest]
    | num n => simp [settingsSave, hak]
    | other => simp [settingsSave, hak]

/-- C2 (witness): the amended theorem applied to a payload holding only the
invalid model "not-a-model", against a concrete pair of settings files. -/
theorem settings_save_invalid_field_fails_closed_witness :
    (settingsSave ⟨some ⟨none, none, some (.str "dark"), none⟩, some ⟨some (.str "old")⟩⟩
        (some ⟨some (.str "not-a-model"), none, none, none⟩)).1 = false ∧
    ((settingsSave ⟨some ⟨none, none, some (.str "dark"), none⟩, some ⟨some (.str "old")⟩⟩
        (some ⟨some (.str "not-a-model"), none, none, none⟩)).2).settingsFile =
      (⟨some ⟨none, none, some (.str "dark"), none⟩,
        some ⟨some (.str "old")⟩⟩ : FS).settingsFile ∧
    ((⟨some (.str "not-a-model"), none, none, none⟩ : StoredSettings).apiKey = none →
      (settingsSave ⟨some ⟨none, none, some (.str "dark"), none⟩, some ⟨some (.str "old")⟩⟩
        (some ⟨some (.str "not-a-model"), none, none, none⟩)).2 =
        ⟨some ⟨none, none, some (.str "dark"), none⟩, some ⟨some (.str "old")⟩⟩) :=
  settings_save_invalid_field_fails_closed
    ⟨some ⟨none, none, some (.str "dark"), none⟩, some ⟨some (.str "old")⟩⟩
    ⟨some (.str "not-a-model"), none, none, none⟩ (Or.inl rfl)

/-- C3: starting from a general settings file holding a legacy apiKey "abc"
(with model "mercury") and no dedicated secret file, settings:load returns
apiKey "abc", and in the file system it leaves behind, the secret file holds
exactly that apiKey while the general settings file no longer has an apiKey
field — the migration is persisted by the same call. -/
theorem settings_load_migrates_legacy_api_key :
    settingsLoad ⟨some ⟨some (.str "mercury"), none, none, some (.str "abc")⟩, none⟩ =
      (⟨"mercury", 16384, "dark", "abc"⟩,
       ⟨some ⟨some (.str "mercury"), none, none, none⟩, some ⟨some (.str "abc")⟩⟩) := by
  decide

/-- Helper: the settings returned by settings:load carry the three overlay
fields computed from the general settings file, whatever the secret file and
migration branch do. -/
theorem settingsLoad_fst_fields (fs : FS) :
    (settingsLoad fs).1.model = loadModelField fs.settingsFile ∧
    (settingsLoad fs).1.maxTokens = loadMaxTokensField fs.settingsFile ∧
    (settingsLoad fs).1.theme = loadThemeField fs.settingsFile := by
  unfold settingsLoad
  refine ⟨?_, ?_, ?_⟩ <;> (repeat' split) <;> rfl

/-- Helper: the model overlay always lands on the allow-list. -/
theorem loadModelField_mem (sf : Option StoredSettings) :
    loadModelField sf ∈ ALLOWED_MODELS := by
  unfold loadModelField
  repeat' split
  all_goals (try decide)
  all_goals (rename_i h; exact h.2)

/-- Helper: the maxTokens overlay always lands in [1, MAX_TOKENS_LIMIT]. -/
theorem loadMaxTokensField_bounds (sf : Option StoredSettings) :
    1 ≤ loadMaxTokensField sf ∧ loadMaxTokensField sf ≤ MAX_TOKENS_LIMIT := by
  unfold loadMaxTokensField
  repeat' split
  all_goals (try decide)
  all_goals assumption

/-- Helper: the theme overlay always lands on the allow-list. -/
theorem loadThemeField_mem (sf : Option StoredSettings) :
    loadThemeField sf ∈ ALLOWED_THEMES := by
  unfold loadThemeField
  repeat' split
  all_goals (try decide)
  all_goals (rename_i h; exact h.2)

/-- Helper: a stored model value that is not an allow-listed string is
dropped in favour of the default. -/
theorem loadModelField_invalid (p : StoredSettings)
    (h : ∀ s, p.model = some (JsVal.str s) → s ∉ ALLOWED_MODELS) :
    loadModelField (some p) = "mercury-2" := by
  cases hm : p.model with
  | none => simp [loadModelField, hm]
  | some v =>
    cases v with
    | str s => simp [loadModelField, hm, h s hm]
    | num n => simp [loadModelField, hm]
    | other => simp [loadModelField, hm]

/-- Helper: an allow-listed stored model overlays the default. -/
theorem loadModelField_valid (p : StoredSettings) (s : String)
    (hm : p.model = some (JsVal.str s)) (hmem : s ∈ ALLOWED_MODELS) :
    loadModelField (some p) = s := by
  have hne : s ≠ "" := by rintro rfl; revert hmem; decide
  simp [loadModelField, hm, hne, hmem]

/-- Helper: a stored maxTokens whose parse is missing or out of range is
dropped in favour of the default. -/
theorem loadMaxTokensField_invalid (p : StoredSettings)
    (h : ∀ v t, p.maxTokens = some v → jsParseInt v = some t →
      t < 1 ∨ MAX_TOKENS_LIMIT < t) :
    loadMaxTokensField (some p) = 16384 := by
  cases hm : p.maxTokens with
  | none => simp [loadMaxTokensField, hm]
  | some v =>
    cases hp : jsParseInt v with
    | none => simp [loadMaxTokensField, hm, hp]
    | some t =>
      have hout := h v t hm hp
      simp only [loadMaxTokensField, hm, hp]
      rw [if_neg (by omega)]

/-- Helper: a stored maxTokens parsing into [1, MAX_TOKENS_LIMIT] overlays
the default. -/
theorem loadMaxTokensField_valid (p : StoredSettings) (v : JsVal) (t : Int)
    (hm : p.maxTokens = some v) (hp : jsParseInt v = some t)
    (h1 : 1 ≤ t) (h2 : t ≤ MAX_TOKENS_LIMIT) :
    loadMaxTokensField (some p) = t := by
  simp [loadMaxTokensField, hm, hp, h1, h2]

/-- Helper: a stored theme that is not an allow-listed string is dropped in
favour of the default. -/
theorem loadThemeField_invalid (p : StoredSettings)
    (h : ∀ s, p.theme = some (JsVal.str s) → s ∉ ALLOWED_THEMES) :
    loadThemeField (some p) = "dark" := by
  cases hm : p.theme with
  | none => simp [loadThemeField, hm]
  | some v =>
    cases v with
    | str s => simp [loadThemeField, hm, h s hm]
    | num n => simp [loadThemeField, hm]
    | other => simp [loadThemeField, hm]

/-- Helper: an allow-listed stored theme overlays the default. -/
theorem loadThemeField_valid (p : StoredSettings) (s : String)
    (hm : p.theme = some (JsVal.str s)) (hmem : s ∈ ALLOWED_THEMES) :
    loadThemeField (some p) = s := by
  have hne : s ≠ "" := by rintro rfl; revert hmem; decide
  simp [loadThemeField, hm, hne, hmem]

/-- Helper: when the secret file is readable with a string apiKey, that key
is the one settings:load returns. -/
theorem settingsLoad_apiKey_from_secret (fs : FS) (f : SecretFile) (k : String)
    (hsec : fs.secretFile = some f) (hak : f.apiKey = some (JsVal.str k)) :
    (settingsLoad fs).1.apiKey = k := by
  simp [settingsLoad, hsec, hak]

/-- C8: settings:load on a fresh environment returns exactly the defaults
(model "mercury-2", maxTokens 16384, theme "dark", apiKey ""); on every file
system the returned model, maxTokens and theme lie in their valid domains;
per field, a stored value failing validation is silently replaced by the
default while a value passing validation overlays it; and a string apiKey
found in the secret file is returned as stored. -/
theorem settings_load_defaults_overlay_validation :
    (settingsLoad ⟨none, none⟩).1 = ⟨"mercury-2", 16384, "dark", ""⟩ ∧
    (∀ fs, (settingsLoad fs).1.model ∈ ALLOWED_MODELS ∧
       1 ≤ (settingsLoad fs).1.maxTokens ∧
       (settingsLoad fs).1.maxTokens ≤ MAX_TOKENS_LIMIT ∧
       (settingsLoad fs).1.theme ∈ ALLOWED_THEMES) ∧
    (∀ fs p, fs.settingsFile = some p →
       ((∀ s, p.model = some (JsVal.str s) → s ∉ ALLOWED_MODELS) →
          (settingsLoad fs).1.model = "mercury-2") ∧
       (∀ s, p.model = some (JsVal.str s) → s ∈ ALLOWED_MODELS →
          (settingsLoad fs).1.model = s) ∧
       ((∀ v t, p.maxTokens = some v → jsParseInt v = some t →
            t < 1 ∨ MAX_TOKENS_LIMIT < t) →
          (settingsLoad fs).1.maxTokens = 16384) ∧
       (∀ v t, p.maxTokens = some v → jsParseInt v = some t → 1 ≤ t →
          t ≤ MAX_TOKENS_LIMIT → (settingsLoad fs).1.maxTokens = t) ∧
       ((∀ s, p.theme = some (JsVal.str s) → s ∉ ALLOWED_THEMES) →
          (settingsLoad fs).1.theme = "dark") ∧
       (∀ s, p.theme = some (JsVal.str s) → s ∈ ALLOWED_THEMES →
          (settingsLoad fs).1.theme = s)) ∧
    (∀ fs f k, fs.secretFile = some f → f.apiKey = some (JsVal.str k) →
       (settingsLoad fs).1.apiKey = k) := by
  refine ⟨by decide, fun fs => ?_, fun fs p hsf => ?_,
    fun fs f k hsec hak => settingsLoad_apiKey_from_secret fs f k hsec hak⟩
  · obtain ⟨h1, h2, h3⟩ := settingsLoad_fst_fields fs
    rw [h1, h2, h3]
    exact ⟨loadModelField_mem _, (loadMaxTokensField_bounds _).1,
      (loadMaxTokensField_bounds _).2, loadThemeField_mem _⟩
  · obtain ⟨h1, h2, h3⟩ := settingsLoad_fst_fields fs
    rw [h1, h2, h3, hsf]
    exact ⟨fun h => loadModelField_invalid p h,
      fun s hm hmem => loadModelField_valid p s hm hmem,
      fun h => loadMaxTokensField_invalid p h,
      fun v t hm hp ha hb => loadMaxTokensField_valid p v t hm hp ha hb,
      fun h => loadThemeField_invalid p h,
      fun s hm hmem => loadThemeField_valid p s hm hmem⟩

/-- C8 (witness): the theorem's parts applied to concrete file systems — an
all-invalid settings file falls back to the defaults field by field, an
all-valid one overlays every field, and a secret file key is returned. -/
theorem settings_load_defaults_overlay_validation_witness :
    ((settingsLoad ⟨some ⟨some (.str "bad"), some (.num 0), some (.str "neon"), none⟩,
        none⟩).1.model = "mercury-2") ∧
    ((settingsLoad ⟨some ⟨some (.str "bad"), some (.num 0), some (.str "neon"), none⟩,
        none⟩).1.maxTokens = 16384) ∧
    ((settingsLoad ⟨some ⟨some (.str "bad"), some (.num 0), some (.str "neon"), none⟩,
        none⟩).1.theme = "dark") ∧
    ((settingsLoad ⟨some ⟨some (.str "mercury"), some (.num 5), some (.str "light"), none⟩,
        none⟩).1.model = "mercury") ∧
    ((settingsLoad ⟨some ⟨some (.str "mercury"), some (.num 5), some (.str "light"), none⟩,
        none⟩).1.maxTokens = 5) ∧
    ((settingsLoad ⟨some ⟨some (.str "mercury"), some (.num 5), some (.str "light"), none⟩,
        none⟩).1.theme = "light") ∧
    ((settingsLoad ⟨none, some ⟨some (.str "sk-123")⟩⟩).1.apiKey = "sk-123") :=
  ⟨(settings_load_defaults_overlay_validation.2.2.1
      ⟨some ⟨some (.str "bad"), some (.num 0), some (.str "neon"), none⟩, none⟩
      ⟨some (.str "bad"), some (.num 0), some (.str "neon"), none⟩ rfl).1
      (by intro s h; injection h with h; injection h with h; subst h; decide),
   (settings_load_defaults_overlay_validation.2.2.1
      ⟨some ⟨some (.str "bad"), some (.num 0), some (.str "neon"), none⟩, none⟩
      ⟨some (.str "bad"), some (.num 0), some (.str "neon"), none⟩ rfl).2.2.1
      (by intro v t hv hp; injection hv with hv; subst hv; injection hp with hp;
          subst hp; exact Or.inl (by decide)),
   (settings_load_defaults_overlay_validation.2.2.1
      ⟨some ⟨some (.str "bad"), some (.num 0), some (.str "neon"), none⟩, none⟩
      ⟨some (.str "bad"), some (.num 0), some (.str "neon"), none⟩ rfl).2.2.2.2.1
      (by intro s h; injection h with h; injection h with h; subst h; decide),
   (settings_load_defaults_overlay_validation.2.2.1
      ⟨some ⟨some (.str "mercury"), some (.num 5), some (.str "light"), none⟩, none⟩
      ⟨some (.str "mercury"), some (.num 5), some (.str "light"), none⟩ rfl).2.1
      "mercury" rfl (by decide),
   (settings_load_defaults_overlay_validation.2.2.1
      ⟨some ⟨some (.str "mercury"), some (.num 5), some (.str "light"), none⟩, none⟩
      ⟨some (.str "mercury"), some (.num 5), some (.str "light"), none⟩ rfl).2.2.2.1
      (.num 5) 5 rfl rfl (by decide) (by decide),
   (settings_load_defaults_overlay_validation.2.2.1
      ⟨some ⟨some (.str "mercury"), some (.num 5), some (.str "light"), none⟩, none⟩
      ⟨some (.str "mercury"), some (.num 5), some (.str "light"), none⟩ rfl).2.2.2.2.2
      "light" rfl (by decide),
   settings_load_defaults_overlay_validation.2.2.2
      ⟨none, some ⟨some (.str "sk-123")⟩⟩ ⟨some (.str "sk-123")⟩ "sk-123" rfl rfl⟩
